import Mathlib

/-!
Shallow embedding of the swap lifecycle engine of this repository:
`src/lib/swap/LiquidNursery.ts` (class `RskNursery`) and
`src/lib/db/ReverseSwapRepository.ts`.

Modelling conventions:
- a Sequelize row becomes a Lean structure; the table becomes an explicit
  `List` of rows; `findOne` becomes `List.find?` and `findAll` with a
  where clause becomes `List.filter`;
- each asynchronous event handler becomes a pure function from its inputs
  (the event payload and the current table) to the updated table and the
  list of events it emits through the `EventEmitter`;
- byte buffers (preimage hashes, preimages) are modelled as their hex
  strings, so `getHexString` from `Utils.ts` is the identity here;
- `BigNumber` amounts are natural numbers; `BigNumber.div` is the
  truncating `Nat` division.
-/

/-- Swap status values of `SwapUpdateEvent` from `src/lib/consts/Enums.ts`.
That file is not under src/; the constructors are the values used by the
sources and by the lifecycle documentation bundled with the repository. -/
inductive SwapUpdateEvent where
  | swapCreated
  | swapExpired
  | invoiceSet
  | invoicePaid
  | invoiceFailedToPay
  | invoiceSettled
  | invoiceExpired
  | minerfeePaid
  | channelCreated
  | transactionMempool
  | transactionConfirmed
  | transactionClaimed
  | transactionRefunded
  | transactionFailed
  deriving DecidableEq, Repr

/-- Modelled from the spec: `CurrencyType` from `src/lib/consts/Enums.ts`,
which is not under src/.  The constructors are the values the sources
mention: BitcoinLike (WalletManager), Rbtc and ERC20 (RskNursery), plus the
Ether and Stacks chains that WalletManager manages. -/
inductive CurrencyType where
  | bitcoinLike
  | ether
  | rbtc
  | erc20
  | stacks
  deriving DecidableEq, Repr

/-- A row of the Swap table (`src/lib/db/models/Swap.ts` is not under src/;
the fields are the ones RskNursery reads or writes, per the data model
section of the spec).  `expectedAmount = 0` models the JavaScript falsy
values (0, undefined, null) of `swap.expectedAmount`. -/
structure Swap where
  id : String
  pair : String
  orderSide : Nat
  preimageHash : String
  status : SwapUpdateEvent
  timeoutBlockHeight : Nat
  expectedAmount : Nat
  lockupTransactionId : Option String
  minerFee : Nat
  deriving DecidableEq, Repr

/-- A row of the ReverseSwap table (`src/lib/db/models/ReverseSwap.ts` is not
under src/; the fields are the ones ReverseSwapRepository and RskNursery
read or write, per the data model section of the spec). -/
structure ReverseSwap where
  id : String
  pair : String
  orderSide : Nat
  preimageHash : String
  status : SwapUpdateEvent
  timeoutBlockHeight : Nat
  transactionId : Option String
  transactionVout : Option Nat
  minerFee : Nat
  preimage : Option String
  failureReason : Option String
  rawTx : Option String
  deriving DecidableEq, Repr

/-- Observed values of an `eth.lockup` contract event (`EtherSwapValues`
from `src/lib/consts/Types.ts`, not under src/; the fields are the ones the
listener reads). -/
structure EtherSwapValues where
  amount : Nat
  claimAddress : String
  timelock : Nat
  preimageHash : String
  deriving DecidableEq, Repr

/-- Observed values of an `erc20.lockup` contract event (`ERC20SwapValues`
from `src/lib/consts/Types.ts`, not under src/). -/
structure ERC20SwapValues where
  amount : Nat
  tokenAddress : String
  claimAddress : String
  timelock : Nat
  preimageHash : String
  deriving DecidableEq, Repr

/-- An ethers `ContractTransaction` handle, reduced to the only field the
nursery reads from it (`transaction.hash`). -/
structure ContractTransaction where
  hash : String
  deriving DecidableEq, Repr

/-- Modelled from the spec: the wallet resolution collaborator.  `Wallet.ts`
and `ERC20WalletProvider.ts` are not under src/; the spec describes
resolveWallet as returning the type, the token identity and the amount unit
conversion of the chain.  `formatTokenAmount` converts an expected amount in
display units to token units, `normalizeTokenAmount` converts token units
back to display units. -/
structure Wallet where
  symbol : String
  type : CurrencyType
  tokenAddress : String
  formatTokenAmount : Nat → Nat
  normalizeTokenAmount : Nat → Nat

/-- Modelled from the spec: the constant `etherDecimals` is imported from
`src/lib/consts/Consts.ts`, which is not under src/.  The spec describes the
native amount conversion as the 10^18 wei equivalent fixed point scaling. -/
def etherDecimals : Nat := 10 ^ 18

/-- Characters of a pair id before its first slash. -/
def takeUntilSlash : List Char → List Char
  | [] => []
  | c :: rest => if c = '/' then [] else c :: takeUntilSlash rest

/-- Characters of a pair id after its first slash. -/
def dropUntilSlash : List Char → List Char
  | [] => []
  | c :: rest => if c = '/' then rest else dropUntilSlash rest

/-- Modelled from the spec: `splitPairId` from `src/lib/Utils.ts` is not
under src/.  A pair id has the form BASE/QUOTE and the spec reads the
settlement chain off `pair` and `orderSide`: the base currency is the
segment before the first slash and the quote currency the segment after
it. -/
def splitPairId (pair : String) : String × String :=
  (String.mk (takeUntilSlash pair.data),
   String.mk (takeUntilSlash (dropUntilSlash pair.data)))

/-- Modelled from the spec: `getChainCurrency` from `src/lib/Utils.ts` is
not under src/.  Order side 0 is a buy; for a normal swap the chain
currency is the quote currency of a buy and the base currency of a sell,
and the two are exchanged for a reverse swap. -/
def getChainCurrency (base quote : String) (orderSide : Nat) (isReverse : Bool) : String :=
  if isReverse then
    if orderSide = 0 then base else quote
  else
    if orderSide = 0 then quote else base

/-- Modelled from the spec: the rejection reasons INVALID_CLAIM_ADDRESS,
INVALID_TIMELOCK, INVALID_TOKEN_LOCKED and INSUFFICIENT_AMOUNT of
`src/lib/swap/Errors.ts`, which is not under src/.  Each constructor
carries the two arguments the nursery passes when building the message. -/
inductive LockupFailReason where
  | invalidClaimAddress (observed expected : String)
  | invalidTimelock (observed expected : Nat)
  | invalidTokenLocked (observed expected : String)
  | insufficientAmount (observed expected : Nat)
  deriving DecidableEq, Repr

/-- The domain events RskNursery emits through its `EventEmitter`, each
carrying exactly the payload of the corresponding `this.emit` call. -/
inductive NurseryEvent where
  | lockupFailed (swap : Swap) (reason : LockupFailReason)
  | ethLockup (swap : Swap) (transactionHash : String) (values : EtherSwapValues)
  | erc20Lockup (swap : Swap) (transactionHash : String) (values : ERC20SwapValues)
  | claim (reverseSwap : ReverseSwap) (preimage : String)
  | lockupConfirmed (reverseSwap : ReverseSwap) (transactionHash : String)
  | lockupFailedToSend (reverseSwap : ReverseSwap) (reason : String)
  | swapExpired (swap : Swap) (isRbtc : Bool)
  | reverseSwapExpired (reverseSwap : ReverseSwap) (isRbtc : Bool)
  deriving DecidableEq, Repr

/-- `ReverseSwapRepository.setReverseSwapStatus`: `reverseSwap.update`
applied to a payload holding `status` and the optional `failureReason`
argument.  Sequelize `Model.update` removes keys whose value is undefined
from the payload before saving (its implementation drops them with the
comment "ignore undefined values"), so an omitted `failureReason` leaves
the stored value unchanged, while a provided one is written. -/
def setReverseSwapStatus (reverseSwap : ReverseSwap) (status : SwapUpdateEvent)
    (failureReason : Option String) : ReverseSwap :=
  { reverseSwap with
      status := status
      failureReason :=
        match failureReason with
        | some reason => some reason
        | none => reverseSwap.failureReason }

/-- The where clause of `ReverseSwapRepository.getReverseSwapsExpirable`:
status not among swap.expired, transaction.failed, transaction.refunded,
invoice.settled, transaction.mempool, and `timeoutBlockHeight <= height`. -/
def reverseSwapExpirable (height : Nat) (rs : ReverseSwap) : Bool :=
  decide (rs.status ≠ SwapUpdateEvent.swapExpired ∧
    rs.status ≠ SwapUpdateEvent.transactionFailed ∧
    rs.status ≠ SwapUpdateEvent.transactionRefunded ∧
    rs.status ≠ SwapUpdateEvent.invoiceSettled ∧
    rs.status ≠ SwapUpdateEvent.transactionMempool ∧
    rs.timeoutBlockHeight ≤ height)

/-- `ReverseSwapRepository.getReverseSwapsExpirable` over the table. -/
def getReverseSwapsExpirable (db : List ReverseSwap) (height : Nat) : List ReverseSwap :=
  db.filter (reverseSwapExpirable height)

/-- Lookup in the wallet map of WalletManager (`wallets.get(symbol)`); the
map is modelled as an association list keyed by the currency symbol. -/
def walletsGet (wallets : List (String × Wallet)) (symbol : String) : Option Wallet :=
  (wallets.find? (fun entry => entry.1 == symbol)).map (fun entry => entry.2)

/-- `RskNursery.getEthereumWallet`: returns the wallet of the symbol when
there is one and it is an Ethereum style wallet (type Rbtc or ERC20). -/
def getEthereumWallet (wallets : List (String × Wallet)) (symbol : String) : Option Wallet :=
  match walletsGet wallets symbol with
  | none => none
  | some wallet =>
    if wallet.type = CurrencyType.rbtc ∨ wallet.type = CurrencyType.erc20 then
      some wallet
    else
      none

/-- `RskNursery.checkExpiredReverseSwaps`: fetch the expirable reverse swaps
of the height and emit `reverseSwap.expired` for each one whose chain
currency resolves to an Ethereum style wallet. -/
def checkExpiredReverseSwaps (wallets : List (String × Wallet)) (db : List ReverseSwap)
    (height : Nat) : List NurseryEvent :=
  (getReverseSwapsExpirable db height).filterMap (fun rs =>
    match getEthereumWallet wallets
        (getChainCurrency (splitPairId rs.pair).1 (splitPairId rs.pair).2 rs.orderSide true) with
    | none => none
    | some wallet => some (NurseryEvent.reverseSwapExpired rs (wallet.symbol == "RBTC")))

/-- A sample reverse swap row used by concrete witnesses. -/
def rsExpirableSample : ReverseSwap :=
  { id := "r1"
    pair := "RBTC/BTC"
    orderSide := 0
    preimageHash := "aa11"
    status := SwapUpdateEvent.transactionConfirmed
    timeoutBlockHeight := 50
    transactionId := some "txid1"
    transactionVout := none
    minerFee := 7
    preimage := none
    failureReason := some "boom"
    rawTx := none }

/-- A sample reverse swap row stuck in transaction.mempool, used by concrete
witnesses. -/
def rsMempoolSample : ReverseSwap :=
  { id := "r2"
    pair := "RBTC/BTC"
    orderSide := 0
    preimageHash := "bb22"
    status := SwapUpdateEvent.transactionMempool
    timeoutBlockHeight := 40
    transactionId := some "txid2"
    transactionVout := none
    minerFee := 9
    preimage := none
    failureReason := none
    rawTx := none }

/-- C2: the reverse swap expiry scan considers exactly the reverse swaps
whose status lies outside the excluded set (swap.expired,
transaction.failed, transaction.refunded, invoice.settled,
transaction.mempool) and whose timeoutBlockHeight is at most the height,
and it never emits reverseSwap.expired for a reverse swap whose status is
transaction.mempool. -/
theorem reverse_expiry_scan_set (db : List ReverseSwap) (height : Nat) (rs : ReverseSwap) :
    (rs ∈ getReverseSwapsExpirable db height ↔
      rs ∈ db ∧
        rs.status ≠ SwapUpdateEvent.swapExpired ∧
        rs.status ≠ SwapUpdateEvent.transactionFailed ∧
        rs.status ≠ SwapUpdateEvent.transactionRefunded ∧
        rs.status ≠ SwapUpdateEvent.invoiceSettled ∧
        rs.status ≠ SwapUpdateEvent.transactionMempool ∧
        rs.timeoutBlockHeight ≤ height) ∧
    (∀ wallets b, NurseryEvent.reverseSwapExpired rs b ∈ checkExpiredReverseSwaps wallets db height →
      rs.status ≠ SwapUpdateEvent.transactionMempool) := by
  constructor
  · simp [getReverseSwapsExpirable, reverseSwapExpirable, List.mem_filter, and_assoc]
  · intro wallets b hmem
    rcases List.mem_filterMap.mp hmem with ⟨rs2, hrs2, hf⟩
    have hrs : rs2 = rs := by
      cases hw : getEthereumWallet wallets
          (getChainCurrency (splitPairId rs2.pair).1 (splitPairId rs2.pair).2 rs2.orderSide true) with
      | none => rw [hw] at hf; simp at hf
      | some wallet =>
        rw [hw] at hf
        simp at hf
        exact hf.1
    subst hrs
    have hpred := (List.mem_filter.mp hrs2).2
    simp [reverseSwapExpirable] at hpred
    exact hpred.2.2.2.2.1

/-- Witness for C2 at a concrete table: a confirmed reverse swap past its
timeout is in the expirable set, and a mempool one is not. -/
theorem reverse_expiry_scan_set_witness :
    rsExpirableSample ∈ getReverseSwapsExpirable [rsExpirableSample, rsMempoolSample] 100 ∧
    ¬ rsMempoolSample ∈ getReverseSwapsExpirable [rsExpirableSample, rsMempoolSample] 100 := by
  constructor
  · exact (reverse_expiry_scan_set [rsExpirableSample, rsMempoolSample] 100 rsExpirableSample).1.mpr
      (by decide)
  · intro hmem
    have h := (reverse_expiry_scan_set [rsExpirableSample, rsMempoolSample] 100 rsMempoolSample).1.mp hmem
    exact h.2.2.2.2.2.1 (by simp [rsMempoolSample])

/-- Modelled from the spec: `SwapRepository.setLockupTransaction` is not
under src/.  Per the spec it records the lockup: `lockupTransactionId` is
set to the transaction hash, `minerFee` is updated and `status` becomes
transaction.mempool.  The confirmed flag the nursery passes as the fourth
argument is not read by anything in scope and is not modelled. -/
def setLockupTransaction (swap : Swap) (lockupTransactionId : String) (minerFee : Nat) : Swap :=
  { swap with
      lockupTransactionId := some lockupTransactionId
      minerFee := minerFee
      status := SwapUpdateEvent.transactionMempool }

/-- The where clause of the `swapRepository.getSwap` call of both lockup
listeners: `preimageHash` equals the hex string of the event preimage hash
and `status` is swap.created or invoice.set. -/
def lockupSwapQuery (preimageHash : String) (s : Swap) : Bool :=
  decide (s.preimageHash = preimageHash ∧
    (s.status = SwapUpdateEvent.swapCreated ∨ s.status = SwapUpdateEvent.invoiceSet))

/-- The where clause of the `reverseSwapRepository.getReverseSwap` call of
both claim listeners: `preimageHash` matches and `status` is not
invoice.settled. -/
def claimReverseSwapQuery (preimageHash : String) (rs : ReverseSwap) : Bool :=
  decide (rs.preimageHash = preimageHash ∧ rs.status ≠ SwapUpdateEvent.invoiceSettled)

/-- Validation and emission block of the `eth.lockup` listener (lines
153 to 185 of LiquidNursery.ts), applied to the already updated swap row:
claim address, then timelock, then the amount when `expectedAmount` is
truthy; the first failing check emits lockup.failed and returns, otherwise
the success event eth.lockup is emitted. -/
def etherSwapChecks (managerAddress : String) (swap : Swap) (transactionHash : String)
    (v : EtherSwapValues) : List NurseryEvent :=
  if v.claimAddress ≠ managerAddress then
    [NurseryEvent.lockupFailed swap (LockupFailReason.invalidClaimAddress v.claimAddress managerAddress)]
  else if v.timelock ≠ swap.timeoutBlockHeight then
    [NurseryEvent.lockupFailed swap (LockupFailReason.invalidTimelock v.timelock swap.timeoutBlockHeight)]
  else if swap.expectedAmount ≠ 0 ∧ swap.expectedAmount * etherDecimals > v.amount then
    [NurseryEvent.lockupFailed swap
      (LockupFailReason.insufficientAmount (v.amount / etherDecimals) swap.expectedAmount)]
  else
    [NurseryEvent.ethLockup swap transactionHash v]

/-- Validation and emission block of the `erc20.lockup` listener (lines
250 to 288 of LiquidNursery.ts), applied to the already updated swap row:
claim address, then token address, then timelock, then the amount when
`expectedAmount` is truthy.  Note that the second argument the source
passes to INVALID_TOKEN_LOCKED is the manager address, not the expected
token address. -/
def erc20SwapChecks (managerAddress : String) (wallet : Wallet) (swap : Swap)
    (transactionHash : String) (v : ERC20SwapValues) : List NurseryEvent :=
  if v.claimAddress ≠ managerAddress then
    [NurseryEvent.lockupFailed swap (LockupFailReason.invalidClaimAddress v.claimAddress managerAddress)]
  else if v.tokenAddress ≠ wallet.tokenAddress then
    [NurseryEvent.lockupFailed swap (LockupFailReason.invalidTokenLocked v.tokenAddress managerAddress)]
  else if v.timelock ≠ swap.timeoutBlockHeight then
    [NurseryEvent.lockupFailed swap (LockupFailReason.invalidTimelock v.timelock swap.timeoutBlockHeight)]
  else if swap.expectedAmount ≠ 0 ∧ wallet.formatTokenAmount swap.expectedAmount > v.amount then
    [NurseryEvent.lockupFailed swap
      (LockupFailReason.insufficientAmount (wallet.normalizeTokenAmount v.amount) swap.expectedAmount)]
  else
    [NurseryEvent.erc20Lockup swap transactionHash v]

/-- Handler of the `eth.lockup` contract event (`listenEtherSwap`):
correlate the event with a swap, require the chain currency RBTC, record
the lockup with the on chain amount scaled down by `etherDecimals`, then
run the checks.  Returns the updated swap table and the emitted events. -/
def etherLockupHandler (managerAddress : String) (db : List Swap) (transactionHash : String)
    (v : EtherSwapValues) : List Swap × List NurseryEvent :=
  match db.find? (lockupSwapQuery v.preimageHash) with
  | none => (db, [])
  | some swap =>
    if getChainCurrency (splitPairId swap.pair).1 (splitPairId swap.pair).2 swap.orderSide false ≠ "RBTC" then
      (db, [])
    else
      (db.map (fun s =>
        if s.id = swap.id then setLockupTransaction swap transactionHash (v.amount / etherDecimals) else s),
       etherSwapChecks managerAddress
         (setLockupTransaction swap transactionHash (v.amount / etherDecimals)) transactionHash v)

/-- Handler of the `erc20.lockup` contract event (`listenERC20Swap`):
correlate the event with a swap, require a wallet of type ERC20 for the
chain currency, record the lockup with the normalized token amount, then
run the checks. -/
def erc20LockupHandler (managerAddress : String) (wallets : List (String × Wallet))
    (db : List Swap) (transactionHash : String) (v : ERC20SwapValues) :
    List Swap × List NurseryEvent :=
  match db.find? (lockupSwapQuery v.preimageHash) with
  | none => (db, [])
  | some swap =>
    match walletsGet wallets
        (getChainCurrency (splitPairId swap.pair).1 (splitPairId swap.pair).2 swap.orderSide false) with
    | none => (db, [])
    | some wallet =>
      if wallet.type ≠ CurrencyType.erc20 then
        (db, [])
      else
        (db.map (fun s =>
          if s.id = swap.id then setLockupTransaction swap transactionHash (wallet.normalizeTokenAmount v.amount) else s),
         erc20SwapChecks managerAddress wallet
           (setLockupTransaction swap transactionHash (wallet.normalizeTokenAmount v.amount)) transactionHash v)

/-- Handler of the `eth.claim` contract event: correlate the revealed
preimage with a reverse swap that is not settled yet and emit `claim`.
The table is never written by this handler. -/
def etherClaimHandler (db : List ReverseSwap) (preimageHash preimage : String) :
    List ReverseSwap × List NurseryEvent :=
  match db.find? (claimReverseSwapQuery preimageHash) with
  | none => (db, [])
  | some reverseSwap => (db, [NurseryEvent.claim reverseSwap preimage])

/-- Handler of the `erc20.claim` contract event; the source body is the
same lookup and emission as the `eth.claim` one. -/
def erc20ClaimHandler (db : List ReverseSwap) (preimageHash preimage : String) :
    List ReverseSwap × List NurseryEvent :=
  match db.find? (claimReverseSwapQuery preimageHash) with
  | none => (db, [])
  | some reverseSwap => (db, [NurseryEvent.claim reverseSwap preimage])

/-- Outcome of `transaction.wait(1)`: the confirmation promise either
resolves or rejects with a reason. -/
inductive WaitOutcome where
  | confirmed
  | failed (reason : String)
  deriving DecidableEq, Repr

/-- `RskNursery.listenContractTransaction`: await one confirmation of the
lockup transaction; on success set the status to transaction.confirmed and
emit lockup.confirmed with the updated row and the transaction hash, on
rejection set the status to transaction.failed and emit
lockup.failedToSend with the updated row and the rejection reason.  In
both branches the repository call omits the failureReason argument. -/
def listenContractTransaction (reverseSwap : ReverseSwap) (transaction : ContractTransaction)
    (outcome : WaitOutcome) : ReverseSwap × NurseryEvent :=
  match outcome with
  | WaitOutcome.confirmed =>
    (setReverseSwapStatus reverseSwap SwapUpdateEvent.transactionConfirmed none,
     NurseryEvent.lockupConfirmed
       (setReverseSwapStatus reverseSwap SwapUpdateEvent.transactionConfirmed none) transaction.hash)
  | WaitOutcome.failed reason =>
    (setReverseSwapStatus reverseSwap SwapUpdateEvent.transactionFailed none,
     NurseryEvent.lockupFailedToSend
       (setReverseSwapStatus reverseSwap SwapUpdateEvent.transactionFailed none) reason)

/-- `RskNursery.init`: query the reverse swaps whose status is
transaction.mempool, skip the ones whose chain currency does not resolve
to an Ethereum style wallet, look the lockup transaction up through the
provider and attach the confirmation watcher when the lookup succeeds.
`getTransaction` returning none models both a provider rejection and a
null result (a null handle throws inside the try block when its wait
method is read, so it is caught the same way).  The result is the
unchanged table, the emitted events (none) and the list of attached
watchers. -/
def nurseryInit (wallets : List (String × Wallet)) (db : List ReverseSwap)
    (getTransaction : String → Option ContractTransaction) :
    List ReverseSwap × List NurseryEvent × List (ReverseSwap × ContractTransaction) :=
  (db, [],
    (db.filter (fun rs => decide (rs.status = SwapUpdateEvent.transactionMempool))).filterMap
      (fun rs =>
        match getEthereumWallet wallets
            (getChainCurrency (splitPairId rs.pair).1 (splitPairId rs.pair).2 rs.orderSide true) with
        | none => none
        | some _ =>
          match rs.transactionId with
          | none => none
          | some transactionId =>
            match getTransaction transactionId with
            | none => none
            | some transaction => some (rs, transaction)))

/-- A sample swap row in status swap.created whose normal swap chain
currency is RBTC (pair RBTC/BTC, sell side). -/
def swapCreatedSample : Swap :=
  { id := "s1"
    pair := "RBTC/BTC"
    orderSide := 1
    preimageHash := "cc33"
    status := SwapUpdateEvent.swapCreated
    timeoutBlockHeight := 1000
    expectedAmount := 2
    lockupTransactionId := none
    minerFee := 0 }

/-- A sample swap row already in transaction.mempool, used to replay lockup
events against. -/
def swapMempoolSample : Swap :=
  { id := "s2"
    pair := "RBTC/BTC"
    orderSide := 1
    preimageHash := "dd44"
    status := SwapUpdateEvent.transactionMempool
    timeoutBlockHeight := 1000
    expectedAmount := 2
    lockupTransactionId := some "txold"
    minerFee := 3 }

/-- A sample token swap row in status invoice.set whose chain currency is
USDT (pair USDT/BTC, sell side). -/
def swapTokenSample : Swap :=
  { id := "s3"
    pair := "USDT/BTC"
    orderSide := 1
    preimageHash := "ee55"
    status := SwapUpdateEvent.invoiceSet
    timeoutBlockHeight := 800
    expectedAmount := 4
    lockupTransactionId := none
    minerFee := 0 }

/-- A sample ERC20 wallet whose token has two extra decimal places. -/
def erc20WalletSample : Wallet :=
  { symbol := "USDT"
    type := CurrencyType.erc20
    tokenAddress := "0xtok"
    formatTokenAmount := fun n => n * 100
    normalizeTokenAmount := fun n => n / 100 }

/-- A sample Rbtc wallet. -/
def rbtcWalletSample : Wallet :=
  { symbol := "RBTC"
    type := CurrencyType.rbtc
    tokenAddress := ""
    formatTokenAmount := fun n => n
    normalizeTokenAmount := fun n => n }

/-- The sample wallet map of the nursery instance. -/
def walletsSample : List (String × Wallet) :=
  [("RBTC", rbtcWalletSample), ("USDT", erc20WalletSample)]

/-- C4: when no swap row has the preimage hash of the event together with
status swap.created or invoice.set (in particular when the event is a
replay against a swap already in transaction.mempool), both lockup
listeners leave the table untouched and emit nothing. -/
theorem lockup_no_match_noop (managerAddress transactionHash : String)
    (wallets : List (String × Wallet)) (db : List Swap)
    (ve : EtherSwapValues) (vt : ERC20SwapValues)
    (he : ∀ s ∈ db, ¬(s.preimageHash = ve.preimageHash ∧
      (s.status = SwapUpdateEvent.swapCreated ∨ s.status = SwapUpdateEvent.invoiceSet)))
    (ht : ∀ s ∈ db, ¬(s.preimageHash = vt.preimageHash ∧
      (s.status = SwapUpdateEvent.swapCreated ∨ s.status = SwapUpdateEvent.invoiceSet))) :
    etherLockupHandler managerAddress db transactionHash ve = (db, []) ∧
    erc20LockupHandler managerAddress wallets db transactionHash vt = (db, []) := by
  have hfe : db.find? (lockupSwapQuery ve.preimageHash) = none := by
    apply List.find?_eq_none.mpr
    intro s hs
    simpa [lockupSwapQuery] using he s hs
  have hft : db.find? (lockupSwapQuery vt.preimageHash) = none := by
    apply List.find?_eq_none.mpr
    intro s hs
    simpa [lockupSwapQuery] using ht s hs
  constructor
  · simp [etherLockupHandler, hfe]
  · simp [erc20LockupHandler, hft]

/-- Witness for C4: replaying a lockup event whose preimage hash matches
only a swap already in transaction.mempool is a no-op for both
listeners. -/
theorem lockup_no_match_noop_witness :
    etherLockupHandler "0xmgr" [swapMempoolSample] "txnew"
        { amount := 5, claimAddress := "0xmgr", timelock := 1000, preimageHash := "dd44" }
      = ([swapMempoolSample], []) ∧
    erc20LockupHandler "0xmgr" walletsSample [swapMempoolSample] "txnew"
        { amount := 5, tokenAddress := "0xtok", claimAddress := "0xmgr", timelock := 1000,
          preimageHash := "dd44" }
      = ([swapMempoolSample], []) :=
  lockup_no_match_noop "0xmgr" "txnew" walletsSample [swapMempoolSample] _ _
    (by decide) (by decide)

/-- C6: a claim event is correlated against a reverse swap only through the
preimage hash and a status other than invoice.settled; with no such row
both claim listeners do nothing, and with one the emitted events are
exactly one claim event carrying the found row and the revealed preimage,
while the table is never written. -/
theorem claim_correlation (db : List ReverseSwap) (preimageHash preimage : String) :
    ((∀ rs ∈ db, ¬(rs.preimageHash = preimageHash ∧ rs.status ≠ SwapUpdateEvent.invoiceSettled)) →
      etherClaimHandler db preimageHash preimage = (db, []) ∧
      erc20ClaimHandler db preimageHash preimage = (db, [])) ∧
    (∀ rs, db.find? (claimReverseSwapQuery preimageHash) = some rs →
      rs ∈ db ∧ rs.preimageHash = preimageHash ∧ rs.status ≠ SwapUpdateEvent.invoiceSettled ∧
      etherClaimHandler db preimageHash preimage = (db, [NurseryEvent.claim rs preimage]) ∧
      erc20ClaimHandler db preimageHash preimage = (db, [NurseryEvent.claim rs preimage])) := by
  constructor
  · intro hnone
    have hf : db.find? (claimReverseSwapQuery preimageHash) = none := by
      apply List.find?_eq_none.mpr
      intro rs hrs
      simpa [claimReverseSwapQuery] using hnone rs hrs
    constructor
    · simp [etherClaimHandler, hf]
    · simp [erc20ClaimHandler, hf]
  · intro rs hf
    have hmem := List.mem_of_find?_eq_some hf
    have hq := List.find?_some hf
    simp [claimReverseSwapQuery] at hq
    exact ⟨hmem, hq.1, hq.2, by simp [etherClaimHandler, hf], by simp [erc20ClaimHandler, hf]⟩

/-- Witness for C6: with no matching reverse swap both claim listeners are
no-ops, and with a matching one exactly one claim event is emitted. -/
theorem claim_correlation_witness :
    etherClaimHandler [rsExpirableSample] "zz99" "secret" = ([rsExpirableSample], []) ∧
    etherClaimHandler [rsExpirableSample] "aa11" "secret"
      = ([rsExpirableSample], [NurseryEvent.claim rsExpirableSample "secret"]) := by
  constructor
  · exact ((claim_correlation [rsExpirableSample] "zz99" "secret").1 (by decide)).1
  · exact ((claim_correlation [rsExpirableSample] "aa11" "secret").2 rsExpirableSample
      (by decide)).2.2.2.1

/-- C5: a confirmation watcher resolves in exactly one of two ways; on a
confirmed wait the reverse swap status becomes transaction.confirmed and
lockup.confirmed is emitted with the updated row and the transaction hash,
and on a rejected wait the status becomes transaction.failed and
lockup.failedToSend is emitted with the updated row and the rejection
reason. -/
theorem confirmation_watcher_outcomes (reverseSwap : ReverseSwap)
    (transaction : ContractTransaction) (outcome : WaitOutcome) :
    (outcome = WaitOutcome.confirmed ∨ ∃ reason, outcome = WaitOutcome.failed reason) ∧
    (outcome = WaitOutcome.confirmed →
      (listenContractTransaction reverseSwap transaction outcome).1.status
          = SwapUpdateEvent.transactionConfirmed ∧
      (listenContractTransaction reverseSwap transaction outcome).2
          = NurseryEvent.lockupConfirmed
              (listenContractTransaction reverseSwap transaction outcome).1 transaction.hash) ∧
    (∀ reason, outcome = WaitOutcome.failed reason →
      (listenContractTransaction reverseSwap transaction outcome).1.status
          = SwapUpdateEvent.transactionFailed ∧
      (listenContractTransaction reverseSwap transaction outcome).2
          = NurseryEvent.lockupFailedToSend
              (listenContractTransaction reverseSwap transaction outcome).1 reason) := by
  cases outcome <;> simp [listenContractTransaction, setReverseSwapStatus]

/-- Witness for C5: the confirmed outcome on a sample watcher. -/
theorem confirmation_watcher_outcomes_witness :
    (listenContractTransaction rsMempoolSample { hash := "txid2" } WaitOutcome.confirmed).1.status
        = SwapUpdateEvent.transactionConfirmed ∧
    (listenContractTransaction rsMempoolSample { hash := "txid2" } WaitOutcome.confirmed).2
        = NurseryEvent.lockupConfirmed
            (listenContractTransaction rsMempoolSample { hash := "txid2" } WaitOutcome.confirmed).1
            "txid2" :=
  (confirmation_watcher_outcomes rsMempoolSample { hash := "txid2" } WaitOutcome.confirmed).2.1 rfl

/-- C10 as stated is false: with the failureReason argument omitted (the
confirmation success path), the previously stored failure reason of the
sample row, some "boom", is kept rather than overwritten with none. -/
theorem set_status_failure_reason_counterexample :
    (setReverseSwapStatus rsExpirableSample SwapUpdateEvent.transactionConfirmed none).failureReason
        = some "boom" ∧
    ¬(setReverseSwapStatus rsExpirableSample SwapUpdateEvent.transactionConfirmed
        none).failureReason = none := by
  decide

/-- C10 (amended): setReverseSwapStatus always writes the status; it writes
failureReason only when the optional argument is provided and keeps the
stored value when the argument is omitted, and every other field is
unchanged. -/
theorem set_status_frame (rs : ReverseSwap) (status : SwapUpdateEvent)
    (failureReason : Option String) :
    (setReverseSwapStatus rs status failureReason).status = status ∧
    (∀ reason, failureReason = some reason →
      (setReverseSwapStatus rs status failureReason).failureReason = some reason) ∧
    (failureReason = none →
      (setReverseSwapStatus rs status failureReason).failureReason = rs.failureReason) ∧
    (setReverseSwapStatus rs status failureReason).id = rs.id ∧
    (setReverseSwapStatus rs status failureReason).pair = rs.pair ∧
    (setReverseSwapStatus rs status failureReason).orderSide = rs.orderSide ∧
    (setReverseSwapStatus rs status failureReason).preimageHash = rs.preimageHash ∧
    (setReverseSwapStatus rs status failureReason).timeoutBlockHeight = rs.timeoutBlockHeight ∧
    (setReverseSwapStatus rs status failureReason).transactionId = rs.transactionId ∧
    (setReverseSwapStatus rs status failureReason).transactionVout = rs.transactionVout ∧
    (setReverseSwapStatus rs status failureReason).minerFee = rs.minerFee ∧
    (setReverseSwapStatus rs status failureReason).preimage = rs.preimage ∧
    (setReverseSwapStatus rs status failureReason).rawTx = rs.rawTx := by
  cases failureReason <;> simp [setReverseSwapStatus]

/-- Witness for the amended C10 on the sample row. -/
theorem set_status_frame_witness :
    (setReverseSwapStatus rsExpirableSample SwapUpdateEvent.transactionConfirmed none).failureReason
        = rsExpirableSample.failureReason ∧
    (setReverseSwapStatus rsExpirableSample SwapUpdateEvent.transactionConfirmed none).status
        = SwapUpdateEvent.transactionConfirmed :=
  ⟨(set_status_frame rsExpirableSample SwapUpdateEvent.transactionConfirmed none).2.2.1 rfl,
   (set_status_frame rsExpirableSample SwapUpdateEvent.transactionConfirmed none).1⟩

theorem setLockupTransaction_status (s : Swap) (t : String) (f : Nat) :
    (setLockupTransaction s t f).status = SwapUpdateEvent.transactionMempool := rfl

theorem setLockupTransaction_timeout (s : Swap) (t : String) (f : Nat) :
    (setLockupTransaction s t f).timeoutBlockHeight = s.timeoutBlockHeight := rfl

theorem setLockupTransaction_expected (s : Swap) (t : String) (f : Nat) :
    (setLockupTransaction s t f).expectedAmount = s.expectedAmount := rfl

theorem setLockupTransaction_lockupId (s : Swap) (t : String) (f : Nat) :
    (setLockupTransaction s t f).lockupTransactionId = some t := rfl

attribute [simp] setLockupTransaction_status setLockupTransaction_timeout
  setLockupTransaction_expected setLockupTransaction_lockupId

/-- Reduction of the eth.lockup handler once a swap is matched and the
chain currency is RBTC. -/
theorem etherLockupHandler_matched (managerAddress transactionHash : String) (db : List Swap)
    (v : EtherSwapValues) (swap : Swap)
    (hfind : db.find? (lockupSwapQuery v.preimageHash) = some swap)
    (hcc : getChainCurrency (splitPairId swap.pair).1 (splitPairId swap.pair).2
      swap.orderSide false = "RBTC") :
    etherLockupHandler managerAddress db transactionHash v =
      (db.map (fun s =>
        if s.id = swap.id then setLockupTransaction swap transactionHash (v.amount / etherDecimals) else s),
       etherSwapChecks managerAddress
         (setLockupTransaction swap transactionHash (v.amount / etherDecimals)) transactionHash v) := by
  simp [etherLockupHandler, hfind, hcc]

/-- Reduction of the erc20.lockup handler once a swap is matched and an
ERC20 wallet is found for the chain currency. -/
theorem erc20LockupHandler_matched (managerAddress transactionHash : String)
    (wallets : List (String × Wallet)) (db : List Swap) (v : ERC20SwapValues)
    (swap : Swap) (wallet : Wallet)
    (hfind : db.find? (lockupSwapQuery v.preimageHash) = some swap)
    (hw : walletsGet wallets (getChainCurrency (splitPairId swap.pair).1 (splitPairId swap.pair).2
      swap.orderSide false) = some wallet)
    (htype : wallet.type = CurrencyType.erc20) :
    erc20LockupHandler managerAddress wallets db transactionHash v =
      (db.map (fun s =>
        if s.id = swap.id then setLockupTransaction swap transactionHash (wallet.normalizeTokenAmount v.amount) else s),
       erc20SwapChecks managerAddress wallet
         (setLockupTransaction swap transactionHash (wallet.normalizeTokenAmount v.amount)) transactionHash v) := by
  simp [erc20LockupHandler, hfind, hw, htype]

/-- A lockup.failed event in the output of the native check chain is the
only emitted event and carries the row the checks were run on. -/
theorem etherSwapChecks_failed (managerAddress transactionHash : String) (swap : Swap)
    (v : EtherSwapValues) (s : Swap) (r : LockupFailReason)
    (hmem : NurseryEvent.lockupFailed s r ∈ etherSwapChecks managerAddress swap transactionHash v) :
    s = swap ∧
    etherSwapChecks managerAddress swap transactionHash v = [NurseryEvent.lockupFailed s r] := by
  unfold etherSwapChecks at hmem ⊢
  split_ifs at hmem ⊢ <;> simp_all

/-- A lockup.failed event in the output of the token check chain is the
only emitted event and carries the row the checks were run on. -/
theorem erc20SwapChecks_failed (managerAddress transactionHash : String) (wallet : Wallet)
    (swap : Swap) (v : ERC20SwapValues) (s : Swap) (r : LockupFailReason)
    (hmem : NurseryEvent.lockupFailed s r ∈ erc20SwapChecks managerAddress wallet swap transactionHash v) :
    s = swap ∧
    erc20SwapChecks managerAddress wallet swap transactionHash v = [NurseryEvent.lockupFailed s r] := by
  unfold erc20SwapChecks at hmem ⊢
  split_ifs at hmem ⊢ <;> simp_all

/-- C1 (amended): the checks of the native contract run in the order claim
address, timelock, amount, and the checks of the token contract run in the
order claim address, token address, timelock, amount; each chain short
circuits on its first failing check and the emitted lockup.failed reason
is the reason of that check, so a token lockup with both a wrong timelock
and a wrong token address is rejected with INVALID_TOKEN_LOCKED. -/
theorem validator_check_order (managerAddress transactionHash : String) (wallet : Wallet)
    (swap : Swap) (ve : EtherSwapValues) (vt : ERC20SwapValues) :
    (ve.claimAddress ≠ managerAddress →
      etherSwapChecks managerAddress swap transactionHash ve =
        [NurseryEvent.lockupFailed swap
          (LockupFailReason.invalidClaimAddress ve.claimAddress managerAddress)]) ∧
    (ve.claimAddress = managerAddress → ve.timelock ≠ swap.timeoutBlockHeight →
      etherSwapChecks managerAddress swap transactionHash ve =
        [NurseryEvent.lockupFailed swap
          (LockupFailReason.invalidTimelock ve.timelock swap.timeoutBlockHeight)]) ∧
    (ve.claimAddress = managerAddress → ve.timelock = swap.timeoutBlockHeight →
      swap.expectedAmount ≠ 0 → swap.expectedAmount * etherDecimals > ve.amount →
      etherSwapChecks managerAddress swap transactionHash ve =
        [NurseryEvent.lockupFailed swap
          (LockupFailReason.insufficientAmount (ve.amount / etherDecimals) swap.expectedAmount)]) ∧
    (ve.claimAddress = managerAddress → ve.timelock = swap.timeoutBlockHeight →
      (swap.expectedAmount = 0 ∨ swap.expectedAmount * etherDecimals ≤ ve.amount) →
      etherSwapChecks managerAddress swap transactionHash ve =
        [NurseryEvent.ethLockup swap transactionHash ve]) ∧
    (vt.claimAddress ≠ managerAddress →
      erc20SwapChecks managerAddress wallet swap transactionHash vt =
        [NurseryEvent.lockupFailed swap
          (LockupFailReason.invalidClaimAddress vt.claimAddress managerAddress)]) ∧
    (vt.claimAddress = managerAddress → vt.tokenAddress ≠ wallet.tokenAddress →
      erc20SwapChecks managerAddress wallet swap transactionHash vt =
        [NurseryEvent.lockupFailed swap
          (LockupFailReason.invalidTokenLocked vt.tokenAddress managerAddress)]) ∧
    (vt.claimAddress = managerAddress → vt.tokenAddress = wallet.tokenAddress →
      vt.timelock ≠ swap.timeoutBlockHeight →
      erc20SwapChecks managerAddress wallet swap transactionHash vt =
        [NurseryEvent.lockupFailed swap
          (LockupFailReason.invalidTimelock vt.timelock swap.timeoutBlockHeight)]) ∧
    (vt.claimAddress = managerAddress → vt.tokenAddress = wallet.tokenAddress →
      vt.timelock = swap.timeoutBlockHeight → swap.expectedAmount ≠ 0 →
      wallet.formatTokenAmount swap.expectedAmount > vt.amount →
      erc20SwapChecks managerAddress wallet swap transactionHash vt =
        [NurseryEvent.lockupFailed swap
          (LockupFailReason.insufficientAmount (wallet.normalizeTokenAmount vt.amount) swap.expectedAmount)]) ∧
    (vt.claimAddress = managerAddress → vt.tokenAddress = wallet.tokenAddress →
      vt.timelock = swap.timeoutBlockHeight →
      (swap.expectedAmount = 0 ∨ wallet.formatTokenAmount swap.expectedAmount ≤ vt.amount) →
      erc20SwapChecks managerAddress wallet swap transactionHash vt =
        [NurseryEvent.erc20Lockup swap transactionHash vt]) := by
  refine ⟨?_, ?_, ?_, ?_, ?_, ?_, ?_, ?_, ?_⟩
  · intro h1
    simp [etherSwapChecks, h1]
  · intro h1 h2
    simp [etherSwapChecks, h1, h2]
  · intro h1 h2 h3 h4
    simp [etherSwapChecks, h1, h2, h3, h4]
  · intro h1 h2 h3
    rcases h3 with h3 | h3
    · simp [etherSwapChecks, h1, h2, h3]
    · have hnc : ¬(swap.expectedAmount * etherDecimals > ve.amount) := Nat.not_lt.mpr h3
      simp [etherSwapChecks, h1, h2, hnc]
  · intro h1
    simp [erc20SwapChecks, h1]
  · intro h1 h2
    simp [erc20SwapChecks, h1, h2]
  · intro h1 h2 h3
    simp [erc20SwapChecks, h1, h2, h3]
  · intro h1 h2 h3 h4 h5
    simp [erc20SwapChecks, h1, h2, h3, h4, h5]
  · intro h1 h2 h3 h4
    rcases h4 with h4 | h4
    · simp [erc20SwapChecks, h1, h2, h3, h4]
    · have hnc : ¬(wallet.formatTokenAmount swap.expectedAmount > vt.amount) := Nat.not_lt.mpr h4
      simp [erc20SwapChecks, h1, h2, h3, hnc]

/-- C1 as stated is false: a token lockup event whose timelock (999 against
an expected 800) and token address (0xother against the expected 0xtok of
the wallet) are both wrong is rejected with the token reason, not with
INVALID_TIMELOCK. -/
theorem validator_order_counterexample :
    erc20SwapChecks "0xmgr" erc20WalletSample swapTokenSample "tx1"
        { amount := 1, tokenAddress := "0xother", claimAddress := "0xmgr", timelock := 999,
          preimageHash := "ee55" }
      = [NurseryEvent.lockupFailed swapTokenSample
          (LockupFailReason.invalidTokenLocked "0xother" "0xmgr")] ∧
    LockupFailReason.invalidTokenLocked "0xother" "0xmgr"
      ≠ LockupFailReason.invalidTimelock 999 800 := by
  constructor
  · rfl
  · decide

/-- Witness for the amended C1: the same wrong timelock and wrong token
event, through the theorem. -/
theorem validator_check_order_witness :
    erc20SwapChecks "0xmgr" erc20WalletSample swapTokenSample "tx1"
        { amount := 1, tokenAddress := "0xother", claimAddress := "0xmgr", timelock := 999,
          preimageHash := "ee55" }
      = [NurseryEvent.lockupFailed swapTokenSample
          (LockupFailReason.invalidTokenLocked "0xother" "0xmgr")] :=
  (validator_check_order "0xmgr" "tx1" erc20WalletSample swapTokenSample
      { amount := 0, claimAddress := "", timelock := 0, preimageHash := "" }
      { amount := 1, tokenAddress := "0xother", claimAddress := "0xmgr", timelock := 999,
        preimageHash := "ee55" }).2.2.2.2.2.1 rfl (by decide)

/-- C3: whenever a lockup listener rejects, the rejection is visible only
after the repository write: the emitted lockup.failed event is the only
emitted event, it carries the post update row (status transaction.mempool,
lockupTransactionId set to the event transaction hash) and that row is in
the output table; in particular no success lockup event is emitted. -/
theorem lockup_update_before_validation (managerAddress transactionHash : String)
    (wallets : List (String × Wallet)) (db : List Swap)
    (ve : EtherSwapValues) (vt : ERC20SwapValues) :
    (∀ s r dbQ evQ, etherLockupHandler managerAddress db transactionHash ve = (dbQ, evQ) →
      NurseryEvent.lockupFailed s r ∈ evQ →
      s.status = SwapUpdateEvent.transactionMempool ∧
      s.lockupTransactionId = some transactionHash ∧
      s ∈ dbQ ∧
      evQ = [NurseryEvent.lockupFailed s r]) ∧
    (∀ s r dbQ evQ, erc20LockupHandler managerAddress wallets db transactionHash vt = (dbQ, evQ) →
      NurseryEvent.lockupFailed s r ∈ evQ →
      s.status = SwapUpdateEvent.transactionMempool ∧
      s.lockupTransactionId = some transactionHash ∧
      s ∈ dbQ ∧
      evQ = [NurseryEvent.lockupFailed s r]) := by
  constructor
  · intro s r dbQ evQ heq hmem
    cases hfind : db.find? (lockupSwapQuery ve.preimageHash) with
    | none =>
      rw [show etherLockupHandler managerAddress db transactionHash ve = (db, []) from by
        simp [etherLockupHandler, hfind]] at heq
      injection heq with h1 h2
      subst h2
      simp at hmem
    | some swap =>
      by_cases hcc : getChainCurrency (splitPairId swap.pair).1 (splitPairId swap.pair).2
          swap.orderSide false = "RBTC"
      · rw [etherLockupHandler_matched managerAddress transactionHash db ve swap hfind hcc] at heq
        injection heq with h1 h2
        subst h1
        subst h2
        obtain ⟨hs, hev⟩ := etherSwapChecks_failed managerAddress transactionHash _ ve s r hmem
        subst hs
        refine ⟨by simp, by simp, ?_, hev⟩
        exact List.mem_map.mpr ⟨swap, List.mem_of_find?_eq_some hfind, by simp⟩
      · rw [show etherLockupHandler managerAddress db transactionHash ve = (db, []) from by
          simp [etherLockupHandler, hfind, hcc]] at heq
        injection heq with h1 h2
        subst h2
        simp at hmem
  · intro s r dbQ evQ heq hmem
    cases hfind : db.find? (lockupSwapQuery vt.preimageHash) with
    | none =>
      rw [show erc20LockupHandler managerAddress wallets db transactionHash vt = (db, []) from by
        simp [erc20LockupHandler, hfind]] at heq
      injection heq with h1 h2
      subst h2
      simp at hmem
    | some swap =>
      cases hw : walletsGet wallets (getChainCurrency (splitPairId swap.pair).1
          (splitPairId swap.pair).2 swap.orderSide false) with
      | none =>
        rw [show erc20LockupHandler managerAddress wallets db transactionHash vt = (db, []) from by
          simp [erc20LockupHandler, hfind, hw]] at heq
        injection heq with h1 h2
        subst h2
        simp at hmem
      | some wallet =>
        by_cases htype : wallet.type = CurrencyType.erc20
        · rw [erc20LockupHandler_matched managerAddress transactionHash wallets db vt swap wallet
            hfind hw htype] at heq
          injection heq with h1 h2
          subst h1
          subst h2
          obtain ⟨hs, hev⟩ :=
            erc20SwapChecks_failed managerAddress transactionHash wallet _ vt s r hmem
          subst hs
          refine ⟨by simp, by simp, ?_, hev⟩
          exact List.mem_map.mpr ⟨swap, List.mem_of_find?_eq_some hfind, by simp⟩
        · rw [show erc20LockupHandler managerAddress wallets db transactionHash vt = (db, []) from by
            simp [erc20LockupHandler, hfind, hw, htype]] at heq
          injection heq with h1 h2
          subst h2
          simp at hmem

/-- Witness for C3: a lockup event with a wrong claim address against the
sample swap; the single emitted failure event carries the updated row. -/
theorem lockup_update_before_validation_witness :
    (setLockupTransaction swapCreatedSample "txh" 0).status = SwapUpdateEvent.transactionMempool ∧
    (setLockupTransaction swapCreatedSample "txh" 0).lockupTransactionId = some "txh" ∧
    setLockupTransaction swapCreatedSample "txh" 0 ∈
      (etherLockupHandler "0xmgr" [swapCreatedSample] "txh"
        { amount := 5, claimAddress := "0xevil", timelock := 1000, preimageHash := "cc33" }).1 ∧
    (etherLockupHandler "0xmgr" [swapCreatedSample] "txh"
        { amount := 5, claimAddress := "0xevil", timelock := 1000, preimageHash := "cc33" }).2
      = [NurseryEvent.lockupFailed (setLockupTransaction swapCreatedSample "txh" 0)
          (LockupFailReason.invalidClaimAddress "0xevil" "0xmgr")] :=
  (lockup_update_before_validation "0xmgr" "txh" walletsSample [swapCreatedSample]
      { amount := 5, claimAddress := "0xevil", timelock := 1000, preimageHash := "cc33" }
      { amount := 0, tokenAddress := "", claimAddress := "", timelock := 0, preimageHash := "" }).1
    (setLockupTransaction swapCreatedSample "txh" 0)
    (LockupFailReason.invalidClaimAddress "0xevil" "0xmgr")
    _ _ rfl (by decide)

/-- C7: for a matched lockup whose swap has a truthy expectedAmount, the
native path accepts exactly when the observed wei amount is at least
expectedAmount times etherDecimals and the token path accepts exactly when
the observed token amount is at least the formatted expectedAmount; a
shortfall emits lockup.failed with INSUFFICIENT_AMOUNT while the updated
row stays in transaction.mempool. -/
theorem sufficiency_check (managerAddress transactionHash : String)
    (wallets : List (String × Wallet)) (db dbT : List Swap)
    (ve : EtherSwapValues) (vt : ERC20SwapValues) (swapE swapT : Swap) (wallet : Wallet) :
    (db.find? (lockupSwapQuery ve.preimageHash) = some swapE →
     getChainCurrency (splitPairId swapE.pair).1 (splitPairId swapE.pair).2
         swapE.orderSide false = "RBTC" →
     ve.claimAddress = managerAddress →
     ve.timelock = swapE.timeoutBlockHeight →
     swapE.expectedAmount ≠ 0 →
     (((etherLockupHandler managerAddress db transactionHash ve).2
         = [NurseryEvent.ethLockup
             (setLockupTransaction swapE transactionHash (ve.amount / etherDecimals))
             transactionHash ve]
       ↔ swapE.expectedAmount * etherDecimals ≤ ve.amount) ∧
      (ve.amount < swapE.expectedAmount * etherDecimals →
        (etherLockupHandler managerAddress db transactionHash ve).2
          = [NurseryEvent.lockupFailed
              (setLockupTransaction swapE transactionHash (ve.amount / etherDecimals))
              (LockupFailReason.insufficientAmount (ve.amount / etherDecimals) swapE.expectedAmount)] ∧
        (setLockupTransaction swapE transactionHash (ve.amount / etherDecimals)).status
          = SwapUpdateEvent.transactionMempool))) ∧
    (dbT.find? (lockupSwapQuery vt.preimageHash) = some swapT →
     walletsGet wallets (getChainCurrency (splitPairId swapT.pair).1 (splitPairId swapT.pair).2
         swapT.orderSide false) = some wallet →
     wallet.type = CurrencyType.erc20 →
     vt.claimAddress = managerAddress →
     vt.tokenAddress = wallet.tokenAddress →
     vt.timelock = swapT.timeoutBlockHeight →
     swapT.expectedAmount ≠ 0 →
     (((erc20LockupHandler managerAddress wallets dbT transactionHash vt).2
         = [NurseryEvent.erc20Lockup
             (setLockupTransaction swapT transactionHash (wallet.normalizeTokenAmount vt.amount))
             transactionHash vt]
       ↔ wallet.formatTokenAmount swapT.expectedAmount ≤ vt.amount) ∧
      (vt.amount < wallet.formatTokenAmount swapT.expectedAmount →
        (erc20LockupHandler managerAddress wallets dbT transactionHash vt).2
          = [NurseryEvent.lockupFailed
              (setLockupTransaction swapT transactionHash (wallet.normalizeTokenAmount vt.amount))
              (LockupFailReason.insufficientAmount
                (wallet.normalizeTokenAmount vt.amount) swapT.expectedAmount)] ∧
        (setLockupTransaction swapT transactionHash (wallet.normalizeTokenAmount vt.amount)).status
          = SwapUpdateEvent.transactionMempool))) := by
  constructor
  · intro hfind hcc h1 h2 h3
    have hred : (etherLockupHandler managerAddress db transactionHash ve).2
        = etherSwapChecks managerAddress
            (setLockupTransaction swapE transactionHash (ve.amount / etherDecimals))
            transactionHash ve := by
      rw [etherLockupHandler_matched managerAddress transactionHash db ve swapE hfind hcc]
    rw [hred]
    rcases Nat.lt_or_ge ve.amount (swapE.expectedAmount * etherDecimals) with hlt | hge
    · have hchecks : etherSwapChecks managerAddress
          (setLockupTransaction swapE transactionHash (ve.amount / etherDecimals))
          transactionHash ve
          = [NurseryEvent.lockupFailed
              (setLockupTransaction swapE transactionHash (ve.amount / etherDecimals))
              (LockupFailReason.insufficientAmount (ve.amount / etherDecimals) swapE.expectedAmount)] := by
        simp [etherSwapChecks, h1, h2, h3, hlt]
      rw [hchecks]
      constructor
      · constructor
        · intro habs
          simp at habs
        · intro hle
          exact absurd hle (Nat.not_le.mpr hlt)
      · intro _
        exact ⟨rfl, by simp⟩
    · have hnc : ¬(swapE.expectedAmount * etherDecimals > ve.amount) := Nat.not_lt.mpr hge
      have hchecks : etherSwapChecks managerAddress
          (setLockupTransaction swapE transactionHash (ve.amount / etherDecimals))
          transactionHash ve
          = [NurseryEvent.ethLockup
              (setLockupTransaction swapE transactionHash (ve.amount / etherDecimals))
              transactionHash ve] := by
        simp [etherSwapChecks, h1, h2, hnc]
      rw [hchecks]
      constructor
      · exact ⟨fun _ => hge, fun _ => rfl⟩
      · intro hlt2
        exact absurd hlt2 (Nat.not_lt.mpr hge)
  · intro hfind hw htype h1 h2 h3 h4
    have hred : (erc20LockupHandler managerAddress wallets dbT transactionHash vt).2
        = erc20SwapChecks managerAddress wallet
            (setLockupTransaction swapT transactionHash (wallet.normalizeTokenAmount vt.amount))
            transactionHash vt := by
      rw [erc20LockupHandler_matched managerAddress transactionHash wallets dbT vt swapT wallet
        hfind hw htype]
    rw [hred]
    rcases Nat.lt_or_ge vt.amount (wallet.formatTokenAmount swapT.expectedAmount) with hlt | hge
    · have hchecks : erc20SwapChecks managerAddress wallet
          (setLockupTransaction swapT transactionHash (wallet.normalizeTokenAmount vt.amount))
          transactionHash vt
          = [NurseryEvent.lockupFailed
              (setLockupTransaction swapT transactionHash (wallet.normalizeTokenAmount vt.amount))
              (LockupFailReason.insufficientAmount
                (wallet.normalizeTokenAmount vt.amount) swapT.expectedAmount)] := by
        simp [erc20SwapChecks, h1, h2, h3, h4, hlt]
      rw [hchecks]
      constructor
      · constructor
        · intro habs
          simp at habs
        · intro hle
          exact absurd hle (Nat.not_le.mpr hlt)
      · intro _
        exact ⟨rfl, by simp⟩
    · have hnc : ¬(wallet.formatTokenAmount swapT.expectedAmount > vt.amount) := Nat.not_lt.mpr hge
      have hchecks : erc20SwapChecks managerAddress wallet
          (setLockupTransaction swapT transactionHash (wallet.normalizeTokenAmount vt.amount))
          transactionHash vt
          = [NurseryEvent.erc20Lockup
              (setLockupTransaction swapT transactionHash (wallet.normalizeTokenAmount vt.amount))
              transactionHash vt] := by
        simp [erc20SwapChecks, h1, h2, h3, hnc]
      rw [hchecks]
      constructor
      · exact ⟨fun _ => hge, fun _ => rfl⟩
      · intro hlt2
        exact absurd hlt2 (Nat.not_lt.mpr hge)

/-- A sample swap row without an expected amount (the JavaScript falsy 0),
chain currency RBTC. -/
def swapZeroSample : Swap :=
  { id := "s4"
    pair := "RBTC/BTC"
    orderSide := 1
    preimageHash := "ff66"
    status := SwapUpdateEvent.invoiceSet
    timeoutBlockHeight := 700
    expectedAmount := 0
    lockupTransactionId := none
    minerFee := 0 }

/-- Witness for C7: the sample swap expects 2 display units; a lockup of
only 10^18 wei (one display unit) is rejected with INSUFFICIENT_AMOUNT and
the updated row stays in transaction.mempool. -/
theorem sufficiency_check_witness :
    (etherLockupHandler "0xmgr" [swapCreatedSample] "txh"
        { amount := 10 ^ 18, claimAddress := "0xmgr", timelock := 1000, preimageHash := "cc33" }).2
      = [NurseryEvent.lockupFailed (setLockupTransaction swapCreatedSample "txh" 1)
          (LockupFailReason.insufficientAmount 1 2)] ∧
    (setLockupTransaction swapCreatedSample "txh" 1).status = SwapUpdateEvent.transactionMempool :=
  ((sufficiency_check "0xmgr" "txh" walletsSample [swapCreatedSample] []
      { amount := 10 ^ 18, claimAddress := "0xmgr", timelock := 1000, preimageHash := "cc33" }
      { amount := 0, tokenAddress := "", claimAddress := "", timelock := 0, preimageHash := "" }
      swapCreatedSample swapCreatedSample rbtcWalletSample).1
    (by decide) (by decide) rfl (by decide) (by decide)).2 (by decide)

/-- C9: with a falsy expectedAmount the sufficiency check is skipped, so a
matched lockup event that passes the other checks emits the success event
whatever the observed amount is, zero included. -/
theorem zero_expected_amount_skips_check (managerAddress transactionHash : String)
    (wallets : List (String × Wallet)) (db dbT : List Swap)
    (ve : EtherSwapValues) (vt : ERC20SwapValues) (swapE swapT : Swap) (wallet : Wallet) :
    (db.find? (lockupSwapQuery ve.preimageHash) = some swapE →
     getChainCurrency (splitPairId swapE.pair).1 (splitPairId swapE.pair).2
         swapE.orderSide false = "RBTC" →
     ve.claimAddress = managerAddress →
     ve.timelock = swapE.timeoutBlockHeight →
     swapE.expectedAmount = 0 →
     (etherLockupHandler managerAddress db transactionHash ve).2
       = [NurseryEvent.ethLockup
           (setLockupTransaction swapE transactionHash (ve.amount / etherDecimals))
           transactionHash ve]) ∧
    (dbT.find? (lockupSwapQuery vt.preimageHash) = some swapT →
     walletsGet wallets (getChainCurrency (splitPairId swapT.pair).1 (splitPairId swapT.pair).2
         swapT.orderSide false) = some wallet →
     wallet.type = CurrencyType.erc20 →
     vt.claimAddress = managerAddress →
     vt.tokenAddress = wallet.tokenAddress →
     vt.timelock = swapT.timeoutBlockHeight →
     swapT.expectedAmount = 0 →
     (erc20LockupHandler managerAddress wallets dbT transactionHash vt).2
       = [NurseryEvent.erc20Lockup
           (setLockupTransaction swapT transactionHash (wallet.normalizeTokenAmount vt.amount))
           transactionHash vt]) := by
  constructor
  · intro hfind hcc h1 h2 h0
    rw [etherLockupHandler_matched managerAddress transactionHash db ve swapE hfind hcc]
    simp [etherSwapChecks, h1, h2, h0]
  · intro hfind hw htype h1 h2 h3 h0
    rw [erc20LockupHandler_matched managerAddress transactionHash wallets dbT vt swapT wallet
      hfind hw htype]
    simp [erc20SwapChecks, h1, h2, h3, h0]

/-- Witness for C9: a lockup of zero wei against the sample swap without an
expected amount emits the success event. -/
theorem zero_expected_amount_skips_check_witness :
    (etherLockupHandler "0xmgr" [swapZeroSample] "txh"
        { amount := 0, claimAddress := "0xmgr", timelock := 700, preimageHash := "ff66" }).2
      = [NurseryEvent.ethLockup (setLockupTransaction swapZeroSample "txh" 0) "txh"
          { amount := 0, claimAddress := "0xmgr", timelock := 700, preimageHash := "ff66" }] :=
  (zero_expected_amount_skips_check "0xmgr" "txh" walletsSample [swapZeroSample] []
      { amount := 0, claimAddress := "0xmgr", timelock := 700, preimageHash := "ff66" }
      { amount := 0, tokenAddress := "", claimAddress := "", timelock := 0, preimageHash := "" }
      swapZeroSample swapZeroSample rbtcWalletSample).1
    (by decide) (by decide) rfl (by decide) (by decide)

/-- C8: startup recovery attaches a watcher for exactly the reverse swaps
of the table whose status is transaction.mempool, whose chain currency
resolves to an Ethereum style wallet (type Rbtc or ERC20) and whose stored
lockup transaction id is found by the provider; it performs no repository
write and emits no event, so a reverse swap whose lookup fails is left
unmonitored and unmodified. -/
theorem init_recovery_set (wallets : List (String × Wallet)) (db : List ReverseSwap)
    (getTransaction : String → Option ContractTransaction)
    (rs : ReverseSwap) (tx : ContractTransaction) :
    ((rs, tx) ∈ (nurseryInit wallets db getTransaction).2.2 ↔
      rs ∈ db ∧ rs.status = SwapUpdateEvent.transactionMempool ∧
      (∃ wallet, getEthereumWallet wallets
        (getChainCurrency (splitPairId rs.pair).1 (splitPairId rs.pair).2 rs.orderSide true)
          = some wallet) ∧
      (∃ transactionId, rs.transactionId = some transactionId ∧
        getTransaction transactionId = some tx)) ∧
    (nurseryInit wallets db getTransaction).1 = db ∧
    (nurseryInit wallets db getTransaction).2.1 = [] ∧
    (∀ symbol wallet, getEthereumWallet wallets symbol = some wallet →
      wallet.type = CurrencyType.rbtc ∨ wallet.type = CurrencyType.erc20) := by
  refine ⟨?_, rfl, rfl, ?_⟩
  · constructor
    · intro hmem
      rcases List.mem_filterMap.mp hmem with ⟨rs2, hrs2, hf⟩
      rcases hw : getEthereumWallet wallets
          (getChainCurrency (splitPairId rs2.pair).1 (splitPairId rs2.pair).2 rs2.orderSide true)
        with _ | wallet
      · simp only [hw] at hf
        exact Option.noConfusion hf
      · simp only [hw] at hf
        rcases htid : rs2.transactionId with _ | transactionId
        · simp only [htid] at hf
          exact Option.noConfusion hf
        · simp only [htid] at hf
          rcases hgt : getTransaction transactionId with _ | transaction
          · simp only [hgt] at hf
            exact Option.noConfusion hf
          · simp only [hgt, Option.some.injEq, Prod.mk.injEq] at hf
            obtain ⟨hrs, htx⟩ := hf
            subst hrs
            subst htx
            have hfil := List.mem_filter.mp hrs2
            refine ⟨hfil.1, by simpa using hfil.2, ⟨wallet, hw⟩, transactionId, htid, hgt⟩
    · rintro ⟨hmem, hstatus, ⟨wallet, hw⟩, transactionId, htid, hgt⟩
      apply List.mem_filterMap.mpr
      refine ⟨rs, List.mem_filter.mpr ⟨hmem, by simp [hstatus]⟩, ?_⟩
      simp only [hw, htid, hgt]
  · intro symbol wallet hw
    unfold getEthereumWallet at hw
    rcases hwg : walletsGet wallets symbol with _ | w
    · simp only [hwg] at hw
      exact Option.noConfusion hw
    · simp only [hwg] at hw
      by_cases htype : w.type = CurrencyType.rbtc ∨ w.type = CurrencyType.erc20
      · rw [if_pos htype] at hw
        injection hw with hw2
        subst hw2
        exact htype
      · rw [if_neg htype] at hw
        cases hw

/-- Witness for C8: recovery over a table holding a mempool reverse swap
and a confirmed one; the provider knows the stored transaction id, so
exactly the mempool row gets a watcher. -/
theorem init_recovery_set_witness :
    (rsMempoolSample, ({ hash := "txid2" } : ContractTransaction)) ∈
      (nurseryInit walletsSample [rsMempoolSample, rsExpirableSample]
        (fun transactionId =>
          if transactionId = "txid2" then some { hash := "txid2" } else none)).2.2 :=
  (init_recovery_set walletsSample [rsMempoolSample, rsExpirableSample]
      (fun transactionId =>
        if transactionId = "txid2" then some { hash := "txid2" } else none)
      rsMempoolSample { hash := "txid2" }).1.mpr
    ⟨by decide, by decide, ⟨rbtcWalletSample, rfl⟩, "txid2", rfl, rfl⟩
